import Mathlib

/-!
Shallow embedding of the perps-ops-control-tower repository
(src/connectors/binance.py, src/connectors/hyperliquid.py, src/risk/engine.py)
used to check the natural-language specification's claims.

Conventions of the embedding:
* Decoded JSON messages are modelled by the inductive type `Val`
  (Python None / bool / number / string / list / dict).  Python numbers
  (int and float alike) are modelled as rationals.
* A Python `datetime` is represented by its epoch timestamp as a rational
  (milliseconds in the connector modules, minutes in the risk module);
  `datetime.fromtimestamp(ms / 1000, tz=utc)` is the unit-preserving
  identification of a timestamp with its source milliseconds value.
* Code that can raise a Python exception is embedded in `Except String`,
  the error string naming the Python exception class.
* Python float("...") string parsing is modelled for plain decimal forms
  (optional sign, digits, optional fractional part); exponent, inf and nan
  spellings are out of scope of every claim checked here.
-/

namespace PerpsOps

/-- A decoded JSON / Python value as handled by the connectors. -/
inductive Val where
  | null : Val
  | bool (b : Bool) : Val
  | num (q : ℚ) : Val
  | str (s : String) : Val
  | arr (xs : List Val) : Val
  | obj (kvs : List (String × Val)) : Val

/-- Python truthiness: None, False, 0, empty string, empty list and empty
dict are falsy, everything else is truthy. -/
def pyTruthy : Val → Bool
  | .null => false
  | .bool b => b
  | .num q => q != 0
  | .str s => s ≠ ""
  | .arr xs => !xs.isEmpty
  | .obj kvs => !kvs.isEmpty

/-- Python `a or b` (returns the first truthy operand, else the second). -/
def pyOr (a b : Val) : Val := if pyTruthy a then a else b

/-- First value bound to key `k` in a dict (Python dicts have unique keys;
the embedding looks up the first binding). -/
def dlookup (kvs : List (String × Val)) (k : String) : Option Val :=
  match kvs with
  | [] => none
  | (k', v) :: tl => if k' = k then some v else dlookup tl k

/-- Python `d.get(k)` on a dict: the bound value or None. -/
def dget (kvs : List (String × Val)) (k : String) : Val :=
  (dlookup kvs k).getD .null

/-- Python `d.get(k, default)` on a dict. -/
def dgetD (kvs : List (String × Val)) (k : String) (d : Val) : Val :=
  (dlookup kvs k).getD d

/-- Python `k in d` for a dict. -/
def hasKey (kvs : List (String × Val)) (k : String) : Bool :=
  (dlookup kvs k).isSome

/-!
Character-list string helpers.  The embedding manipulates strings through
their character lists so that every operation reduces inside the kernel;
each helper models the named Python string method.
-/

/-- Whitespace recognized by Python `str.strip()` and `float()`. -/
def isWs (c : Char) : Bool := c = ' ' || c = '\t' || c = '\n' || c = '\r'

/-- Python `s.strip()`. -/
def pyStrip (s : String) : String :=
  ⟨((s.data.dropWhile isWs).reverse.dropWhile isWs).reverse⟩

/-- Python `s.lower()` (ASCII case folding, all the payloads use ASCII). -/
def pyLower (s : String) : String := ⟨s.data.map Char.toLower⟩

/-- Python `s.startswith(p)`. -/
def pyStartsWith (s p : String) : Bool := p.data.isPrefixOf s.data

/-- Python `s.endswith(p)`. -/
def pyEndsWith (s p : String) : Bool := p.data.reverse.isPrefixOf s.data.reverse

/-- Python `needle in hay` substring containment. -/
def containsSub (needle : List Char) : List Char → Bool
  | [] => needle.isEmpty
  | c :: tl => needle.isPrefixOf (c :: tl) || containsSub needle tl

/-- Python `sub in s` on strings. -/
def pyContains (s sub : String) : Bool := containsSub sub.data s.data

/-- Split a character list at every occurrence of `c` (Python
`s.split(c)` for a one-character separator). -/
def splitOnChar (c : Char) : List Char → List (List Char)
  | [] => [[]]
  | x :: tl =>
    let r := splitOnChar c tl
    if x = c then [] :: r
    else
      match r with
      | h :: t => (x :: h) :: t
      | [] => [[x]]

/-- Value of a digit string read left to right; none if empty or if any
character is not a decimal digit. -/
def readDigits (cs : List Char) : Option Nat :=
  match cs with
  | [] => none
  | _ =>
    cs.foldlM (fun acc c =>
      if c.isDigit then some (acc * 10 + (c.toNat - '0'.toNat)) else none) 0

/-- Model of Python `float(s)` for plain decimal strings: optional
whitespace, optional sign, digits with an optional fractional part
("50000.5", ".5", "5.", "7").  Returns none when parsing fails
(Python raises ValueError, which `to_num` turns into None). -/
def parseFloat (s : String) : Option ℚ :=
  let t := (pyStrip s).data
  let (sign, body) :=
    match t with
    | '-' :: tl => ((-1 : ℚ), tl)
    | '+' :: tl => ((1 : ℚ), tl)
    | _ => ((1 : ℚ), t)
  match splitOnChar '.' body with
  | [a] =>
    match readDigits a with
    | some n => some (sign * n)
    | none => none
  | [a, b] =>
    if a.isEmpty && b.isEmpty then none
    else
      let ip : Option Nat := if a.isEmpty then some 0 else readDigits a
      let fp : Option Nat := if b.isEmpty then some 0 else readDigits b
      match ip, fp with
      | some i, some f => some (sign * ((i : ℚ) + (f : ℚ) / ((10 : ℚ) ^ b.length)))
      | _, _ => none
  | _ => none

/-- Key preference order of `to_num` for dict-encoded numbers
(hyperliquid.py line 53). -/
def NUM_KEYS : List String := ["n", "v", "value", "px", "price", "sz", "size", "amount"]

/-- Fuel-indexed embedding of `to_num` (hyperliquid.py lines 40-61).
The fuel bounds the dict-nesting recursion depth; Python recursion on a
finite decoded message always terminates, and every value below the fuel
bound is handled exactly as the source does: None for None, the numeric
value of a number (Python bool is an int: True is 1.0), float parsing for
strings, None for lists, and for dicts the first conventional key present
(returning its coercion even when that is None), falling back to the
first member value that coerces to a number. -/
def toNumF : Nat → Val → Option ℚ
  | 0, _ => none
  | fuel + 1, v =>
    match v with
    | .null => none
    | .bool b => some (if b then 1 else 0)
    | .num q => some q
    | .str s => parseFloat s
    | .arr _ => none
    | .obj kvs =>
      match NUM_KEYS.findSome? (fun k => dlookup kvs k) with
      | some v' => toNumF fuel v'
      | none => kvs.findSome? (fun kv => toNumF fuel kv.2)

/-- `to_num` with fuel ample for every message any claim touches. -/
def toNum (v : Val) : Option ℚ := toNumF 1000 v

/-!
Embedding of src/connectors/hyperliquid.py.
Timestamps are epoch milliseconds as rationals; receipt time
(`now_utc()`) is passed in as the parameter `nowMs`.
-/

namespace HL

/-- The venue constant of hyperliquid.py. -/
def VENUE : String := "hyperliquid_perps"

/-- An order-book level as a (price, size) pair of parsed numbers. -/
abbrev Lvl := ℚ × ℚ

/-- A row bound for ops.raw_trades:
(ts, venue, symbol, price, size, side). -/
abbrev TradeRow := ℚ × String × String × ℚ × ℚ × String

/-- A row bound for ops.raw_book_l1:
(ts, venue, symbol, bid_price, bid_size, ask_price, ask_size). -/
abbrev QuoteRow := ℚ × String × String × ℚ × ℚ × ℚ × ℚ

/-- `symbol_of` (hyperliquid.py lines 35-37): trim, lower-case, suffix a
bare base ticker with the usdt quote asset; empty input maps to "". -/
def symbol_of (coin : String) : String :=
  let c := pyLower (pyStrip coin)
  if c = "" then "" else c ++ "usdt"

/-- `(data.get("coin") or msg.get("coin") or "").strip()` (lines 91 and
171): the first truthy coin field, stripped.  Python raises
AttributeError when the chosen value is not a string. -/
def coinOf (dkvs mkvs : List (String × Val)) : Except String String :=
  match pyOr (dget dkvs "coin") (pyOr (dget mkvs "coin") (.str "")) with
  | .str s => .ok (pyStrip s)
  | _ => .error "AttributeError"

/-- The side aliases accepted as a buy in `parse_trade_msg` (line 103):
the Python test is membership in the tuple ("B", "Buy", "buy", True),
where Python equality makes the number 1 equal to True. -/
def isBuySide : Val → Bool
  | .str s => s = "B" || s = "Buy" || s = "buy"
  | .bool b => b
  | .num q => q == 1
  | _ => false

/-- Timestamp selection of `parse_trade_msg` (line 105):
`datetime.fromtimestamp(ts_ms / 1000, utc) if ts_ms else now_utc()`.
A missing or falsy (zero) extracted time falls back to receipt time. -/
def tradeTs (tsMs : Option ℚ) (nowMs : ℚ) : ℚ :=
  match tsMs with
  | some m => if m = 0 then nowMs else m
  | none => nowMs

/-- One trade entry of the trades list (`parse_trade_msg` lines 98-106):
`t.get(...)` raises AttributeError when the entry is not a dict;
an entry whose px or sz does not coerce to a number is skipped. -/
def parseTradeEntry (nowMs : ℚ) (sym : String) (t : Val) :
    Except String (Option TradeRow) :=
  match t with
  | .obj tk =>
    match toNum (dget tk "px"), toNum (dget tk "sz") with
    | some px, some sz =>
      let side := if isBuySide (dget tk "side") then "buy" else "sell"
      let ts := tradeTs (toNum (dget tk "time")) nowMs
      .ok (some (ts, VENUE, sym, px, sz, side))
    | _, _ => .ok none
  | _ => .error "AttributeError"

/-- `parse_trade_msg` (hyperliquid.py lines 89-116). -/
def parse_trade_msg (nowMs : ℚ) (msg : Val) : Except String (List TradeRow) :=
  match msg with
  | .obj mkvs =>
    match dgetD mkvs "data" (.obj []) with
    | .obj dkvs =>
      match coinOf dkvs mkvs with
      | .error e => .error e
      | .ok coin =>
        let sym := symbol_of coin
        if sym = "" then .ok []
        else
          match dget dkvs "trades" with
          | .arr ts =>
            ts.foldlM (fun acc t =>
              match parseTradeEntry nowMs sym t with
              | .error e => .error e
              | .ok (some r) => .ok (acc ++ [r])
              | .ok none => .ok acc) []
          | _ =>
            -- fallback branch (lines 108-115): data itself carries px/sz
            if hasKey dkvs "px" ∧ hasKey dkvs "sz" then
              match toNum (dget dkvs "px"), toNum (dget dkvs "sz") with
              | some px, some sz =>
                let side := if isBuySide (dget dkvs "side") then "buy" else "sell"
                let ts := tradeTs (toNum (dget dkvs "time")) nowMs
                .ok [(ts, VENUE, sym, px, sz, side)]
              | _, _ => .ok []
            else .ok []
    | _ =>
      -- data not a dict: data.get("coin") raises
      .error "AttributeError"
  | _ => .error "AttributeError"

/-- Bucket chosen by `normalize_side_list` for a side tag (lines 136-143):
the string test is `str(side).lower().startswith(("bid","b"))` for bids,
`.startswith(("ask","a"))` for asks, with identity tests against the
Python booleans; every unrecognized tag (including a missing one) falls
into the bid bucket.  Only a string whose lower-casing starts with "a"
(never the rendering of a number, list or dict, which starts with a
digit, sign or bracket) or the boolean False selects the ask bucket. -/
def sideIsBidBucket : Val → Bool
  | .null => true
  | .bool b => b
  | .str s =>
    let t := pyLower s
    if pyStartsWith t "b" then true
    else if pyStartsWith t "a" then false
    else true
  | _ => true

/-- One element of `normalize_side_list`'s loop (lines 121-143), yielding
(price, size, bid?) when the element contributes a level. -/
def sideEntry (x : Val) : Option (ℚ × ℚ × Bool) :=
  match x with
  | .arr ys =>
    let px := match ys.head? with | some v => toNum v | none => none
    let sz := match ys.get? 1 with | some v => toNum v | none => none
    let side := (ys.get? 2).getD .null
    match px, sz with
    | some p, some s => some (p, s, sideIsBidBucket side)
    | _, _ => none
  | .obj kvs =>
    let px := toNum (if hasKey kvs "px" then dget kvs "px" else dget kvs "price")
    let sz := toNum (if hasKey kvs "sz" then dget kvs "sz"
                     else pyOr (dget kvs "size") (dget kvs "amount"))
    let side0 := dget kvs "side"
    let side :=
      match side0 with
      | .null =>
        if hasKey kvs "isBid" then
          if pyTruthy (dget kvs "isBid") then Val.str "bid" else Val.str "ask"
        else Val.null
      | v => v
    match px, sz with
    | some p, some s => some (p, s, sideIsBidBucket side)
    | _, _ => none
  | _ => none

/-- Python `for x in arr` over a decoded value: lists iterate elements,
dicts iterate keys, strings iterate characters; anything else raises
TypeError. -/
def pyIter : Val → Except String (List Val)
  | .arr xs => .ok xs
  | .obj kvs => .ok (kvs.map (fun kv => .str kv.1))
  | .str s => .ok (s.data.map (fun c => .str (String.mk [c])))
  | _ => .error "TypeError"

/-- `normalize_side_list` (hyperliquid.py lines 118-144). -/
def normalize_side_list (v : Val) : Except String (List Lvl × List Lvl) :=
  match pyIter v with
  | .error e => .error e
  | .ok xs =>
    .ok (xs.foldl (fun acc x =>
      match sideEntry x with
      | some (p, s, isBid) =>
        if isBid then (acc.1 ++ [(p, s)], acc.2) else (acc.1, acc.2 ++ [(p, s)])
      | none => acc) ([], []))

/-- `extract_bids_asks_from_data` (hyperliquid.py lines 146-165); the
argument is the message's data dict. -/
def extract_bids_asks_from_data (dkvs : List (String × Val)) :
    Except String (List Lvl × List Lvl) :=
  match dget dkvs "levels" with
  | .obj lv =>
    -- 1) levels as dict: take the bid bucket of levels["bids"] and the
    -- ask bucket of levels["asks"]
    match normalize_side_list (dgetD lv "bids" (.arr [])),
          normalize_side_list (dgetD lv "asks" (.arr [])) with
    | .ok (b1, _), .ok (_, a1) => .ok (b1, a1)
    | .error e, _ => .error e
    | _, .error e => .error e
  | lvOther =>
    match dget dkvs "bids", dget dkvs "asks" with
    | .arr bs, .arr as_ =>
      -- 2) top-level bids/asks lists
      match normalize_side_list (.arr bs), normalize_side_list (.arr as_) with
      | .ok (b1, _), .ok (_, a1) => .ok (b1, a1)
      | .error e, _ => .error e
      | _, .error e => .error e
    | _, _ =>
      match lvOther with
      | .arr ls =>
        -- 3) levels as flat list with side flags
        normalize_side_list (.arr ls)
      | _ =>
        -- 4) nested book object
        match dget dkvs "book" with
        | .obj bk =>
          match normalize_side_list (dgetD bk "bids" (.arr [])),
                normalize_side_list (dgetD bk "asks" (.arr [])) with
          | .ok (b1, _), .ok (_, a1) => .ok (b1, a1)
          | .error e, _ => .error e
          | _, .error e => .error e
        | _ => .ok ([], [])

/-- Insert into an ascending-by-price list, before the first level of
equal or larger price. -/
def insertAsc (x : Lvl) : List Lvl → List Lvl
  | [] => [x]
  | y :: ys => if x.1 ≤ y.1 then x :: y :: ys else y :: insertAsc x ys

/-- Python `sorted(levels, key=lambda t: t[0])`: stable ascending sort by
price.  A stable sort's output is unique, so this insertion sort agrees
with CPython's sorted on every input. -/
def sortAsc : List Lvl → List Lvl
  | [] => []
  | x :: xs => insertAsc x (sortAsc xs)

/-- Insert into a descending-by-price list, before the first level of
equal or smaller price. -/
def insertDesc (x : Lvl) : List Lvl → List Lvl
  | [] => [x]
  | y :: ys => if y.1 ≤ x.1 then x :: y :: ys else y :: insertDesc x ys

/-- Python `sorted(levels, key=lambda t: t[0], reverse=True)`: stable
descending sort by price. -/
def sortDesc : List Lvl → List Lvl
  | [] => []
  | x :: xs => insertDesc x (sortDesc xs)

/-- Lines 177-183 of `parse_l2_to_l1`: when exactly one side is missing,
synthesize it from a price extreme of the combined sorted list (the
highest price as the lone bid, the lowest as the lone ask). -/
def synthSides (bids asks : List Lvl) : List Lvl × List Lvl :=
  if (bids.isEmpty || asks.isEmpty) && (!bids.isEmpty || !asks.isEmpty) then
    let flat := sortAsc (bids ++ asks)
    let b1 := if bids.isEmpty then
        (match flat.getLast? with | some x => [x] | none => bids)
      else bids
    let a1 := if asks.isEmpty then
        (match flat.head? with | some x => [x] | none => asks)
      else asks
    (b1, a1)
  else (bids, asks)

/-- Lines 177-194 of `parse_l2_to_l1`: after the synthesis block, pick
best bid (head of the descending sort) and best ask (head of the
ascending sort), dropping the quote when either side is empty or either
best price is non-positive. -/
def l1FromSides (nowMs : ℚ) (sym : String) (bids asks : List Lvl) : Option QuoteRow :=
  match sortDesc (synthSides bids asks).1, sortAsc (synthSides bids asks).2 with
  | (bidP, bidQ) :: _, (askP, askQ) :: _ =>
    if bidP ≤ 0 ∨ askP ≤ 0 then none
    else some (nowMs, VENUE, sym, bidP, bidQ, askP, askQ)
  | _, _ => none

/-- `parse_l2_to_l1` (hyperliquid.py lines 167-194). -/
def parse_l2_to_l1 (nowMs : ℚ) (msg : Val) : Except String (Option QuoteRow) :=
  match msg with
  | .obj mkvs =>
    match dgetD mkvs "data" (.obj []) with
    | .obj dkvs =>
      match coinOf dkvs mkvs with
      | .error e => .error e
      | .ok coin =>
        let sym := symbol_of coin
        if sym = "" then .ok none
        else
          match extract_bids_asks_from_data dkvs with
          | .error e => .error e
          | .ok (bids, asks) => .ok (l1FromSides nowMs sym bids asks)
    | _ => .ok none
  | _ => .error "AttributeError"

/-- An item placed on the writer queue: ("trade", row) or ("l1", row). -/
inductive QItem where
  | trade (r : TradeRow)
  | l1 (r : QuoteRow)

/-- Channel selection of `handle_envelope` (lines 205-209):
`envelope.get("channel") or envelope.get("type") or
(isinstance(envelope.get("subscription"), dict) and
envelope["subscription"].get("type"))`. -/
def channelOf (mkvs : List (String × Val)) : Val :=
  let third :=
    match dget mkvs "subscription" with
    | .obj sk => dget sk "type"
    | _ => .bool false
  pyOr (dget mkvs "channel") (pyOr (dget mkvs "type") third)

/-- The body of `handle_envelope`'s try block (lines 218-229): dispatch on
the channel name, parsing trades or book snapshots into queue items.  A
truthy non-string channel raises AttributeError at `channel.lower()`. -/
def hlDispatch (nowMs : ℚ) (chan env : Val) : Except String (List QItem) :=
  if !pyTruthy chan then .ok []
  else
    match chan with
    | .str cs =>
      let c := pyLower cs
      if pyStartsWith c "trade" then
        match parse_trade_msg nowMs env with
        | .ok rs => .ok (rs.map QItem.trade)
        | .error e => .error e
      else if pyContains c "l2" || pyContains c "book" then
        match parse_l2_to_l1 nowMs env with
        | .ok (some row) => .ok [QItem.l1 row]
        | .ok none => .ok []
        | .error e => .error e
      else .ok []
    | _ => .error "AttributeError"

/-- `handle_envelope`'s try/except (lines 217-231): any parse error is
caught and logged, producing zero events; the read loop then continues
with the next message. -/
def handleEnvelopeMsg (nowMs : ℚ) (chan env : Val) : List QItem :=
  match hlDispatch nowMs chan env with
  | .ok xs => xs
  | .error _ => []

/-- The hyperliquid writer queue is `asyncio.Queue()` with no capacity
(line 234): `await queue.put(...)` (lines 220, 225) always appends. -/
def hlEnqueue {α : Type} (q : List α) (x : α) : List α := q ++ [x]

end HL

/-!
Embedding of src/connectors/binance.py (the per-message body of
`socket_loop`, lines 108-131, and its queue and backoff behavior).
-/

namespace BN

/-- The venue constant of binance.py. -/
def VENUE : String := "binance_perps"

/-- A trade row as binance.py builds it (line 118): price and size are
forwarded exactly as decoded, without numeric parsing. -/
abbrev BTradeRow := ℚ × String × String × Val × Val × String

/-- A bookTicker row as binance.py builds it (line 128). -/
abbrev BQuoteRow := ℚ × String × String × Val × Val × Val × Val

/-- An item placed on the writer queue. -/
inductive BItem where
  | trade (r : BTradeRow)
  | l1 (r : BQuoteRow)

/-- `ms_to_utc` (binance.py lines 32-33) applied to a decoded field:
dividing a non-number by 1000 raises TypeError (Python bool divides as an
int). -/
def msToUtc : Val → Except String ℚ
  | .num q => .ok q
  | .bool b => .ok (if b then 1 else 0)
  | _ => .error "TypeError"

/-- The per-message body of binance.py's read loop (lines 108-131), after
`json.loads`: route on the stream suffix and build at most one row.
`data["s"]` raises KeyError when the symbol field is missing and
TypeError when data is not a dict; `.lower()` and `.endswith` raise
AttributeError on non-strings; a missing event time raises TypeError
inside `ms_to_utc`.  None of these raises is handled before the
connection-level handler (lines 133-141). -/
def processMessage (m : Val) : Except String (Option BItem) :=
  match m with
  | .obj kvs =>
    let streamV := dgetD kvs "stream" (.str "")
    let data := dgetD kvs "data" (.obj [])
    match streamV with
    | .str stream =>
      if pyEndsWith stream "@trade" then
        match data with
        | .obj dk =>
          match dlookup dk "s" with
          | none => .error "KeyError"
          | some (.str ss) =>
            let sym := pyLower ss
            let price := dget dk "p"
            let qty := dget dk "q"
            let side := if pyTruthy (dget dk "m") then "sell" else "buy"
            match msToUtc (dgetD dk "T" (dget dk "E")) with
            | .error e => .error e
            | .ok ts => .ok (some (.trade (ts, VENUE, sym, price, qty, side)))
          | some _ => .error "AttributeError"
        | _ => .error "TypeError"
      else if pyEndsWith stream "@bookTicker" then
        match data with
        | .obj dk =>
          match dlookup dk "s" with
          | none => .error "KeyError"
          | some (.str ss) =>
            let sym := pyLower ss
            let bidP := dget dk "b"
            let bidQ := dget dk "B"
            let askP := dget dk "a"
            let askQ := dget dk "A"
            match msToUtc (dget dk "E") with
            | .error e => .error e
            | .ok ts => .ok (some (.l1 (ts, VENUE, sym, bidP, bidQ, askP, askQ)))
          | some _ => .error "AttributeError"
        | _ => .error "TypeError"
      else .ok none
    | _ => .error "AttributeError"
  | _ => .error "AttributeError"

/-- What the read loop does with one decoded message: an uncaught raise
leaves the `async with` connection block, tearing the connection down and
falling through to the backoff-and-reconnect path (lines 133-144). -/
inductive LoopOutcome where
  | keepReading (item : Option BItem)
  | tearDown (err : String)

/-- One read-loop step of binance.py around `processMessage`. -/
def loopStep (m : Val) : LoopOutcome :=
  match processMessage m with
  | .ok it => .keepReading it
  | .error e => .tearDown e

/-- The configured queue capacity (line 79): asyncio.Queue(maxsize=50000). -/
def queueMax : Nat := 50000

/-- The guarded enqueue of binance.py (lines 120-121, 130-131):
`if not queue.full(): await queue.put(row)` — at capacity the new event
is silently dropped and the loop continues at once. -/
def bnEnqueue {α : Type} (q : List α) (x : α) : List α :=
  if q.length < queueMax then q ++ [x] else q

end BN

/-!
Embedding of the reconnect backoff shared by both connectors
(binance.py lines 82, 99, 143-144; hyperliquid.py lines 236, 245,
254-255): sleep the current backoff after a failure, then double it up
to the ceiling 30; reset to 1 on a successful connection.
-/

namespace Backoff

/-- Connection events seen by the transport loop. -/
inductive WsEvent where
  | connected
  | failed

/-- Per-venue transport state: the current backoff, in time units. -/
structure ConnSt where
  backoff : Nat

/-- One transition of the transport loop: on success the backoff resets
to the floor 1; on failure the loop sleeps the current backoff (the
returned value) and doubles it up to the ceiling 30. -/
def connStep (s : ConnSt) : WsEvent → ConnSt × Option Nat
  | .connected => (⟨1⟩, none)
  | .failed => (⟨min (s.backoff * 2) 30⟩, some s.backoff)

/-- Run `n` consecutive failures, collecting the sleep durations in
order. -/
def runFails (s : ConnSt) : Nat → ConnSt × List Nat
  | 0 => (s, [])
  | n + 1 =>
    let (s1, sl) := connStep s .failed
    let (s2, rest) := runFails s1 n
    (s2, (sl.getD 0) :: rest)

end Backoff

/-!
Embedding of src/risk/engine.py.  Time is measured in minutes as a
rational (`datetime.now(timezone.utc)` is the `now` parameter;
`timedelta(minutes=m)` is the rational `m`).  The feature sample carries
the numeric metrics read by `QUERY_FEATURES`; rule configuration fields
follow the rules.yaml schema described by the spec.
-/

namespace Risk

/-- A configured rule (engine.py lines 179-185 read these fields from the
rule dict; severity defaults to "warn", desc to the rule id, actions to
an empty list). -/
structure Rule where
  id : String
  metric : String
  op : String
  threshold : ℚ
  scopeVenue : Option String := none
  scopeSymbol : Option String := none
  severity : String := "warn"
  desc : String := ""
  actions : List String := []

/-- One feature sample of a (venue, symbol) group as built by
`series_from_rows` (lines 140-154).  Metrics read through `.get` are
optional; the non-numeric bookkeeping fields venue/symbol/ts are not
legal rule metrics and are omitted from metric lookup. -/
structure Sample where
  venue : String
  symbol : String
  ts : ℚ
  spread_bps : Option ℚ := none
  depth_10bps_bid : Option ℚ := none
  depth_10bps_ask : Option ℚ := none
  imbalance : Option ℚ := none
  freshness_ms : Option ℚ := none

/-- `head.get(metric)` for the numeric metric columns; any other metric
name yields None. -/
def Sample.getMetric (s : Sample) (m : String) : Option ℚ :=
  if m = "spread_bps" then s.spread_bps
  else if m = "depth_10bps_bid" then s.depth_10bps_bid
  else if m = "depth_10bps_ask" then s.depth_10bps_ask
  else if m = "imbalance" then s.imbalance
  else if m = "freshness_ms" then s.freshness_ms
  else none

/-- `match_scope` (engine.py lines 107-113): an absent scope field
matches anything, a present one must equal the market's value. -/
def match_scope (r : Rule) (venue symbol : String) : Bool :=
  (match r.scopeVenue with
   | some v => v = venue
   | none => true) &&
  (match r.scopeSymbol with
   | some s => s = symbol
   | none => true)

/-- `op_eval` (engine.py lines 115-128). -/
def op_eval (op : String) (value : Option ℚ) (threshold : ℚ)
    (prevValue : Option ℚ) : Bool :=
  match value with
  | none => false
  | some v =>
    if op = ">" then decide (v > threshold)
    else if op = ">=" then decide (v ≥ threshold)
    else if op = "<" then decide (v < threshold)
    else if op = "<=" then decide (v ≤ threshold)
    else if op = "abs>" then decide (|v| > threshold)
    else if op = "pct_change>" then
      match prevValue with
      | none => false
      | some p =>
        if p = 0 then false
        else decide (|(v - p) / p| * 100 > threshold)
    else false

/-- The cooldown key (rule_id, venue, symbol). -/
abbrev RKey := String × String × String

/-- The process-local `_last_fired` map, as an association list whose
first binding for a key is current. -/
abbrev LastFired := List (RKey × ℚ)

/-- `_last_fired.get(key)`. -/
def lfLookup (m : LastFired) (k : RKey) : Option ℚ :=
  match m with
  | [] => none
  | (k', t) :: tl => if k' = k then some t else lfLookup tl k

/-- `mark_fired` (engine.py lines 137-138). -/
def lfSet (m : LastFired) (k : RKey) (t : ℚ) : LastFired := (k, t) :: m

/-- `cooloff_ok` (engine.py lines 130-135): fire allowed when the key
never fired, or when at least `minutes` have elapsed since it did. -/
def cooloff_ok (lastFired : Option ℚ) (now minutes : ℚ) : Bool :=
  match lastFired with
  | none => true
  | some last => decide (now - last ≥ minutes)

/-- A persisted RiskEvent row (engine.py lines 195-211): (ts, venue,
symbol, rule_id, severity, metric, value, threshold, message, actions).
The human-readable message concatenates the parts the source formats;
numeral rendering stands in for Python float repr. -/
abbrev RiskEvent :=
  ℚ × String × String × String × String × String × Option ℚ × ℚ × String × List String

/-- The f-string of line 194. -/
def riskMessage (desc metric : String) (value : Option ℚ) (threshold : ℚ)
    (venue symbol : String) : String :=
  desc ++ " | " ++ metric ++ "=" ++
    (match value with | some v => toString v | none => "None") ++
    " thr=" ++ toString threshold ++ " | " ++ venue ++ ":" ++ symbol

/-- The RiskEvent inserted on a fire (lines 195-211). -/
def mkRiskEvent (now : ℚ) (venue symbol : String) (r : Rule)
    (value : Option ℚ) : RiskEvent :=
  (now, venue, symbol, r.id, r.severity, r.metric, value, r.threshold,
   riskMessage r.desc r.metric value r.threshold venue symbol, r.actions)

/-- The evaluator state threaded through one `evaluate_once` cycle: the
cooldown map, the alert rows committed so far, and the fired counter. -/
structure EvalSt where
  lastFired : LastFired
  events : List RiskEvent
  firedCount : Nat

/-- The body of `evaluate_once`'s inner loop for one (venue, symbol)
group and one rule (engine.py lines 175-215).  `insertOk` is an oracle
for whether the INSERT and commit succeed; when they fail the raised
exception propagates out of `evaluate_once` before `mark_fired` runs, so
the returned flag records the raise and the state is unchanged. -/
def processRule (insertOk : Bool) (now cooloffMinutes : ℚ)
    (venue symbol : String) (head : Sample) (prev : Option Sample)
    (r : Rule) (st : EvalSt) : EvalSt × Bool :=
  if ¬ match_scope r venue symbol then (st, false)
  else
    let value := head.getMetric r.metric
    let prevValue := prev.bind (fun p => p.getMetric r.metric)
    if ¬ cooloff_ok (lfLookup st.lastFired (r.id, venue, symbol)) now cooloffMinutes then
      (st, false)
    else if op_eval r.op value r.threshold prevValue then
      if insertOk then
        ({ lastFired := lfSet st.lastFired (r.id, venue, symbol) now,
           events := st.events ++ [mkRiskEvent now venue symbol r value],
           firedCount := st.firedCount + 1 }, false)
      else (st, true)
    else (st, false)

end Risk

/-!
Shared helper lemmas.
-/

/-- Evaluation of `to_num` on the string "50000.5". -/
theorem toNum_50000p5 : toNum (.str "50000.5") = some (100001 / 2) := by
  simp [toNum, toNumF, parseFloat, pyStrip, isWs, splitOnChar, readDigits]
  norm_num

/-- Evaluation of `to_num` on the string "0.01". -/
theorem toNum_0p01 : toNum (.str "0.01") = some (1 / 100) := by
  simp [toNum, toNumF, parseFloat, pyStrip, isWs, splitOnChar, readDigits]
  norm_num

/-- Evaluation of `to_num` on the string "0". -/
theorem toNum_0 : toNum (.str "0") = some 0 := by
  simp [toNum, toNumF, parseFloat, pyStrip, isWs, splitOnChar, readDigits]

/-- Evaluation of `to_num` on a numeric timestamp. -/
theorem toNum_t0 : toNum (.num 1700000000000) = some 1700000000000 := rfl

namespace HL

/-- The head of the stable ascending sort is a provided level of minimal
price. -/
theorem sortAsc_head_min (l : List Lvl) (h : l ≠ []) :
    ∃ b t, sortAsc l = b :: t ∧ b ∈ l ∧ ∀ y ∈ l, b.1 ≤ y.1 := by
  induction l with
  | nil => exact absurd rfl h
  | cons x xs ih =>
    by_cases hxs : xs = []
    · subst hxs
      exact ⟨x, [], rfl, by simp, by simp⟩
    · obtain ⟨b, t, hsort, hmem, hmin⟩ := ih hxs
      by_cases hle : x.1 ≤ b.1
      · refine ⟨x, b :: t, ?_, by simp, ?_⟩
        · simp only [sortAsc, hsort, insertAsc, if_pos hle]
        · intro y hy
          rcases List.mem_cons.mp hy with rfl | hy'
          · exact le_refl _
          · exact le_trans hle (hmin y hy')
      · refine ⟨b, insertAsc x t, ?_, List.mem_cons_of_mem _ hmem, ?_⟩
        · simp only [sortAsc, hsort, insertAsc, if_neg hle]
        · intro y hy
          rcases List.mem_cons.mp hy with rfl | hy'
          · exact le_of_not_le hle
          · exact hmin y hy'

/-- The head of the stable descending sort is a provided level of maximal
price. -/
theorem sortDesc_head_max (l : List Lvl) (h : l ≠ []) :
    ∃ b t, sortDesc l = b :: t ∧ b ∈ l ∧ ∀ y ∈ l, y.1 ≤ b.1 := by
  induction l with
  | nil => exact absurd rfl h
  | cons x xs ih =>
    by_cases hxs : xs = []
    · subst hxs
      exact ⟨x, [], rfl, by simp, by simp⟩
    · obtain ⟨b, t, hsort, hmem, hmax⟩ := ih hxs
      by_cases hle : b.1 ≤ x.1
      · refine ⟨x, b :: t, ?_, by simp, ?_⟩
        · simp only [sortDesc, hsort, insertDesc, if_pos hle]
        · intro y hy
          rcases List.mem_cons.mp hy with rfl | hy'
          · exact le_refl _
          · exact le_trans (hmax y hy') hle
      · refine ⟨b, insertDesc x t, ?_, List.mem_cons_of_mem _ hmem, ?_⟩
        · simp only [sortDesc, hsort, insertDesc, if_neg hle]
        · intro y hy
          rcases List.mem_cons.mp hy with rfl | hy'
          · exact le_of_not_le hle
          · exact hmax y hy'

/-- The guard of lines 185-193 only lets strictly positive best prices
through. -/
theorem l1FromSides_pos (nowMs : ℚ) (sym : String) (bids asks : List Lvl)
    (row : QuoteRow) (h : l1FromSides nowMs sym bids asks = some row) :
    0 < row.2.2.2.1 ∧ 0 < row.2.2.2.2.2.1 := by
  unfold l1FromSides at h
  split at h
  · split at h
    · exact absurd h (by simp)
    · rename_i hneg
      push_neg at hneg
      cases h
      exact ⟨hneg.1, hneg.2⟩
  · exact absurd h (by simp)

end HL

namespace Backoff

/-- Doubling a capped power of two stays the capped next power. -/
theorem minpow (j : Nat) : min (min (2 ^ j) 30 * 2) 30 = min (2 ^ (j + 1)) 30 := by
  have h2 : 2 ^ (j + 1) = 2 ^ j * 2 := pow_succ 2 j
  omega

/-- From a backoff of `min (2 ^ j) 30`, the sleeps of `n` consecutive
failures are the next `n` capped powers of two. -/
theorem runFails_sleeps (n j : Nat) :
    (runFails ⟨min (2 ^ j) 30⟩ n).2
      = (List.range n).map (fun k => min (2 ^ (j + k)) 30) := by
  induction n generalizing j with
  | zero => simp [runFails]
  | succ n ih =>
    have step : (runFails ⟨min (2 ^ j) 30⟩ (n + 1)).2
        = min (2 ^ j) 30 :: (runFails ⟨min (min (2 ^ j) 30 * 2) 30⟩ n).2 := rfl
    rw [step, minpow j, ih (j + 1), List.range_succ_eq_map]
    have harg : ∀ k, j + 1 + k = j + (k + 1) := by omega
    simp [List.map_map, harg, Function.comp]

/-- From the reset backoff 1, the sleep before the k-th reconnect attempt
(0-indexed) is `min (2 ^ k) 30`. -/
theorem backoff_from_reset (n : Nat) :
    (runFails ⟨1⟩ n).2 = (List.range n).map (fun k => min (2 ^ k) 30) := by
  have h := runFails_sleeps n 0
  simp only [pow_zero] at h
  rw [show (min 1 30 : Nat) = 1 from rfl] at h
  rw [h]
  simp

end Backoff

namespace Risk

/-- A breach attempt inside the cooloff window leaves the evaluator state
unchanged and emits nothing, whatever the operator outcome. -/
theorem cooloff_blocks
    (insertOk : Bool) (now minutes : ℚ) (venue symbol : String)
    (head : Sample) (prev : Option Sample) (r : Rule)
    (st : EvalSt) (last : ℚ)
    (hlook : lfLookup st.lastFired (r.id, venue, symbol) = some last)
    (hlt : now - last < minutes) :
    processRule insertOk now minutes venue symbol head prev r st = (st, false) := by
  have hc : cooloff_ok (lfLookup st.lastFired (r.id, venue, symbol)) now minutes
      = false := by
    rw [hlook]
    unfold cooloff_ok
    simp [not_le.mpr hlt]
  by_cases hsc : match_scope r venue symbol = true
  · simp [processRule, hsc, hc]
  · simp [processRule, hsc]

end Risk

/-!
Concrete decoded messages and configurations used by the claims.
-/

/-- A decoded Hyperliquid l2Book message whose levels dict carries only
bid levels: bids [(100,1),(101,2)] and an empty asks list. -/
def onlyBidsBookMsg : Val := .obj [("channel", .str "l2Book"),
  ("data", .obj [("coin", .str "BTC"),
    ("levels", .obj [
      ("bids", .arr [.arr [.num 100, .num 1], .arr [.num 101, .num 2]]),
      ("asks", .arr [])])])]

/-- A decoded Hyperliquid trades message for the bare ticker BTC with
string-encoded price "50000.5" and size "0.01", a maker flag m=true and
no explicit side token, at epoch time 1700000000000 ms. -/
def hlTradeMsg : Val := .obj [("channel", .str "trades"),
  ("data", .obj [("coin", .str "BTC"),
    ("trades", .arr [.obj [("px", .str "50000.5"), ("sz", .str "0.01"),
      ("m", .bool true), ("time", .num 1700000000000)]])])]

/-- The same trade as a decoded Binance stream message: symbol "BTCUSDT",
maker flag m=true, event time 1700000000000 ms. -/
def bnTradeMsg : Val := .obj [("stream", .str "btcusdt@trade"),
  ("data", .obj [("s", .str "BTCUSDT"), ("p", .str "50000.5"),
    ("q", .str "0.01"), ("m", .bool true), ("T", .num 1700000000000)])]

/-- A malformed Binance trade message whose payload is missing the
symbol field "s". -/
def bnNoSymbolMsg : Val := .obj [("stream", .str "btcusdt@trade"),
  ("data", .obj [])]

/-- A decoded Binance bookTicker message carrying a zero bid price. -/
def bnZeroBidMsg : Val := .obj [("stream", .str "btcusdt@bookTicker"),
  ("data", .obj [("s", .str "BTCUSDT"), ("b", .str "0"), ("B", .str "1"),
    ("a", .str "100"), ("A", .str "2"), ("E", .num 1700000000000)])]

/-- One side-tagged order-book level for a flat levels list. -/
def bookLvl (p s : ℚ) (side : String) : Val :=
  .obj [("px", .num p), ("sz", .num s), ("side", .str side)]

/-- A decoded Hyperliquid l2Book message with a flat side-tagged levels
list. -/
def bookMsg (lvls : List Val) : Val := .obj [("channel", .str "l2Book"),
  ("data", .obj [("coin", .str "BTC"), ("levels", .arr lvls)])]

/-- A decoded Hyperliquid l2Book message whose levels dict carries both
sides as untagged [price, size] pairs: bids [(100,1),(101,2)] and asks
[(102,1),(103,5)]. -/
def untaggedBookMsg : Val := .obj [("channel", .str "l2Book"),
  ("data", .obj [("coin", .str "BTC"),
    ("levels", .obj [
      ("bids", .arr [.arr [.num 100, .num 1], .arr [.num 101, .num 2]]),
      ("asks", .arr [.arr [.num 102, .num 1], .arr [.num 103, .num 5]])])])]

/-- A sample queue item for queue-capacity statements. -/
def sampleQItem : HL.QItem :=
  .trade (0, "hyperliquid_perps", "btcusdt", 1, 1, "buy")

/-- A sample Binance queue item for queue-capacity statements. -/
def sampleBItem : BN.BItem :=
  .trade (0, "binance_perps", "btcusdt", .str "1", .str "1", "buy")

/-- A rule wide_spread: spread_bps > 50. -/
def wideSpreadRule : Risk.Rule :=
  { id := "wide_spread", metric := "spread_bps", op := ">", threshold := 50,
    desc := "wide spread" }

/-- A latest sample whose spread_bps is 75. -/
def breachSample : Risk.Sample :=
  { venue := "binance_perps", symbol := "btcusdt", ts := 0,
    spread_bps := some 75 }

/-- An evaluator state in which wide_spread last fired for
(binance_perps, btcusdt) at minute 0. -/
def firedSt : Risk.EvalSt :=
  { lastFired := [(("wide_spread", "binance_perps", "btcusdt"), 0)],
    events := [], firedCount := 0 }

/-- An evaluator state with an empty cooldown map. -/
def freshSt : Risk.EvalSt := { lastFired := [], events := [], firedCount := 0 }

/-!
The claims.
-/

/-- C1: the claim states that `parse_l2_to_l1` emits no QuoteEvent when
one side's levels are entirely missing.  Evaluating the embedded
`parse_l2_to_l1` at a snapshot carrying only the bid levels
[(100,1),(101,2)] shows the opposite: lines 177-183 synthesize the ask
side from the lowest bid and the function emits the crossed quote
bid (101,2) / ask (100,1).  The spec itself (section 9) identifies this
synthesis as the historical, deliberately-omitted behavior, so the code,
not the claim, is in the wrong. -/
theorem C1_one_sided_book_synthesizes_quote :
    HL.parse_l2_to_l1 5 onlyBidsBookMsg
      = .ok (some (5, "hyperliquid_perps", "btcusdt", 101, 2, 100, 1)) := rfl

/-- C2 (counterexample): the hyperliquid writer queue is created with no
capacity, so an enqueue onto a queue already holding 50000 events (the
only configured capacity in the system) grows it to 50001 instead of
dropping the event: the claimed capacity bound and at-capacity drop do
not hold for that connector, and no drop counter exists anywhere. -/
theorem C2_hyperliquid_queue_unbounded :
    (HL.hlEnqueue (List.replicate BN.queueMax sampleQItem) sampleQItem).length
      = BN.queueMax + 1 := by
  rw [HL.hlEnqueue, List.length_append, List.length_replicate,
    List.length_singleton]

/-- C2 (amended): the Binance event queue (capacity 50000) never exceeds
its capacity, and an enqueue attempted while the queue is full drops the
new event without blocking, leaving the queue unchanged; the drop is
silent — no counter is incremented. -/
theorem C2_binance_queue_bounded {α : Type} (q : List α) (x : α)
    (hcap : q.length ≤ BN.queueMax) :
    (BN.bnEnqueue q x).length ≤ BN.queueMax ∧
    (q.length = BN.queueMax → BN.bnEnqueue q x = q) := by
  unfold BN.bnEnqueue
  by_cases hlt : q.length < BN.queueMax
  · rw [if_pos hlt]
    refine ⟨?_, fun he => absurd hlt (by omega)⟩
    rw [List.length_append, List.length_singleton]
    omega
  · rw [if_neg hlt]
    exact ⟨hcap, fun _ => rfl⟩

/-- C2 witness: the amended bound evaluated at a full queue. -/
theorem C2_binance_queue_bounded_witness :
    (BN.bnEnqueue (List.replicate BN.queueMax sampleBItem) sampleBItem).length
        ≤ BN.queueMax ∧
    ((List.replicate BN.queueMax sampleBItem).length = BN.queueMax →
      BN.bnEnqueue (List.replicate BN.queueMax sampleBItem) sampleBItem
        = List.replicate BN.queueMax sampleBItem) :=
  C2_binance_queue_bounded _ _ (by simp)

/-- C3 (counterexample): on the Binance connector a malformed decoded
message — a trade payload with no symbol field "s" — raises KeyError out
of the per-message code; the read loop has no local handler, so the raise
exits the connection block and tears the connection down instead of
continuing with the next message. -/
theorem C3_binance_malformed_message_tears_down :
    BN.loopStep bnNoSymbolMsg = .tearDown "KeyError" := rfl

/-- C3 (amended): on the Hyperliquid connector `handle_envelope` catches
every parse error, so a malformed message yields zero events and the read
loop continues with subsequent messages; the Binance per-message path has
no such boundary and a malformed message tears the connection down. -/
theorem C3_hyperliquid_normalizer_never_raises (nowMs : ℚ) (chan env : Val)
    (e : String) (h : HL.hlDispatch nowMs chan env = .error e) :
    HL.handleEnvelopeMsg nowMs chan env = [] := by
  unfold HL.handleEnvelopeMsg
  rw [h]

/-- C3 witness: a truthy non-string channel raises AttributeError inside
the try block, and the catch turns it into zero events. -/
theorem C3_hyperliquid_normalizer_never_raises_witness :
    HL.hlDispatch 0 (.bool true) .null = .error "AttributeError" ∧
    HL.handleEnvelopeMsg 0 (.bool true) .null = [] :=
  ⟨rfl, C3_hyperliquid_normalizer_never_raises 0 _ _ _ rfl⟩

/-- C4: from a reset backoff, the sleep before the k-th reconnect attempt
of a run of consecutive failures (counting attempts from 0, so that the
sequence starts at 1 as the claim states) is `min (2 ^ k) 30`, and one
successful connection resets the backoff to the floor 1. -/
theorem C4_backoff_sequence :
    (∀ n : Nat, (Backoff.runFails ⟨1⟩ n).2
        = (List.range n).map (fun k => min (2 ^ k) 30)) ∧
    (∀ s : Backoff.ConnSt, Backoff.connStep s .connected = (⟨1⟩, none)) :=
  ⟨Backoff.backoff_from_reset, fun _ => rfl⟩

/-- C5: the feed message (trade, symbol BTC, maker flag true, price
"50000.5", size "0.01", time T) normalizes to exactly one TradeEvent
(T, venue, "btcusdt", 50000.5, 0.01, "sell"): the Hyperliquid parser
lower-cases and quote-suffixes the bare ticker, parses the numeric
strings and records side "sell" (no recognized buy token), and the
Binance parser maps maker flag m=true to recorded side "sell". -/
theorem C5_trade_normalization :
    HL.parse_trade_msg 0 hlTradeMsg
      = .ok [(1700000000000, "hyperliquid_perps", "btcusdt",
          100001 / 2, 1 / 100, "sell")] ∧
    BN.processMessage bnTradeMsg
      = .ok (some (.trade (1700000000000, "binance_perps", "btcusdt",
          .str "50000.5", .str "0.01", "sell"))) := by
  constructor
  · simp [hlTradeMsg, HL.parse_trade_msg, HL.coinOf, HL.symbol_of, HL.VENUE,
      HL.parseTradeEntry, HL.isBuySide, HL.tradeTs, dgetD, dget, dlookup,
      pyOr, pyTruthy, pyStrip, pyLower, isWs, toNum_50000p5, toNum_0p01,
      toNum_t0]
  · rfl

/-- C6 (counterexample): the Binance bookTicker path performs no price
validation: a message with bid price "0" is enqueued as a quote row whose
bid price has numeric value 0, which is not positive — a QuoteEvent with
bid_price ≤ 0 reaches persistence. -/
theorem C6_binance_emits_nonpositive_bid :
    BN.processMessage bnZeroBidMsg = .ok (some (.l1
      (1700000000000, "binance_perps", "btcusdt",
       .str "0", .str "1", .str "100", .str "2"))) ∧
    toNum (.str "0") = some 0 ∧ ¬ (0 : ℚ) > 0 :=
  ⟨rfl, toNum_0, by norm_num⟩

/-- C6 (amended): the Hyperliquid normalizer never emits a QuoteEvent
with bid_price ≤ 0 or ask_price ≤ 0 — every quote row produced by
`parse_l2_to_l1` has strictly positive best bid and best ask prices; the
Binance path forwards bookTicker fields unvalidated. -/
theorem C6_hyperliquid_quote_prices_positive (nowMs : ℚ) (msg : Val)
    (row : HL.QuoteRow) (h : HL.parse_l2_to_l1 nowMs msg = .ok (some row)) :
    0 < row.2.2.2.1 ∧ 0 < row.2.2.2.2.2.1 := by
  unfold HL.parse_l2_to_l1 at h
  dsimp only at h
  split at h
  case _ =>
    split at h
    case _ =>
      split at h
      case _ => exact absurd h (by simp)
      case _ =>
        split at h
        case _ => exact absurd h (by simp)
        case _ =>
          split at h
          case _ => exact absurd h (by simp)
          case _ =>
            simp only [Except.ok.injEq] at h
            exact HL.l1FromSides_pos _ _ _ _ _ (by rw [h])
    case _ => exact absurd h (by simp)
  case _ => exact absurd h (by simp)

/-- C6 witness: the positivity invariant evaluated at a two-sided book
snapshot. -/
theorem C6_hyperliquid_quote_prices_positive_witness :
    0 < ((7 : ℚ), "hyperliquid_perps", "btcusdt",
        (101 : ℚ), (2 : ℚ), (102 : ℚ), (1 : ℚ)).2.2.2.1 ∧
    0 < ((7 : ℚ), "hyperliquid_perps", "btcusdt",
        (101 : ℚ), (2 : ℚ), (102 : ℚ), (1 : ℚ)).2.2.2.2.2.1 :=
  C6_hyperliquid_quote_prices_positive 7
    (bookMsg [bookLvl 100 1 "bid", bookLvl 101 2 "bid",
      bookLvl 102 1 "ask", bookLvl 103 5 "ask"]) _ rfl

/-- C7: a breach of a (rule, venue, symbol) triple within
cooloff_minutes of its last fire never produces an alert (the state is
returned unchanged), while with cooloff 3 a breach 2 minutes after the
fire is suppressed and a breach 4 minutes after produces exactly one
alert. -/
theorem C7_cooloff_window :
    (∀ (insertOk : Bool) (now minutes : ℚ) (venue symbol : String)
        (head : Risk.Sample) (prev : Option Risk.Sample) (r : Risk.Rule)
        (st : Risk.EvalSt) (last : ℚ),
      Risk.lfLookup st.lastFired (r.id, venue, symbol) = some last →
      now - last < minutes →
      Risk.processRule insertOk now minutes venue symbol head prev r st
        = (st, false)) ∧
    Risk.processRule true 2 3 "binance_perps" "btcusdt"
      breachSample none wideSpreadRule firedSt = (firedSt, false) ∧
    (Risk.processRule true 4 3 "binance_perps" "btcusdt"
      breachSample none wideSpreadRule firedSt).1.events.length = 1 ∧
    (Risk.processRule true 4 3 "binance_perps" "btcusdt"
      breachSample none wideSpreadRule firedSt).2 = false := by
  refine ⟨Risk.cooloff_blocks, ?_, ?_, ?_⟩
  · norm_num [Risk.processRule, Risk.cooloff_ok, Risk.lfLookup,
      Risk.match_scope, Risk.op_eval, Risk.Sample.getMetric, wideSpreadRule,
      breachSample, firedSt]
  · norm_num [Risk.processRule, Risk.cooloff_ok, Risk.lfLookup,
      Risk.match_scope, Risk.op_eval, Risk.Sample.getMetric, wideSpreadRule,
      breachSample, firedSt, Risk.lfSet, Risk.mkRiskEvent]
  · norm_num [Risk.processRule, Risk.cooloff_ok, Risk.lfLookup,
      Risk.match_scope, Risk.op_eval, Risk.Sample.getMetric, wideSpreadRule,
      breachSample, firedSt, Risk.lfSet, Risk.mkRiskEvent]

/-- C7 witness: the general suppression law applied 2 minutes after a
fire with cooloff 3. -/
theorem C7_cooloff_window_witness :
    Risk.processRule true 2 3 "binance_perps" "btcusdt"
      breachSample none wideSpreadRule firedSt = (firedSt, false) :=
  C7_cooloff_window.1 true 2 3 "binance_perps" "btcusdt"
    breachSample none wideSpreadRule firedSt 0 rfl (by norm_num)

/-- C8: `op_eval` never fires on an absent latest value, whatever the
operator; pct_change> never fires when the previous value is absent or
zero; and with a non-zero previous value pct_change> fires exactly when
the absolute percent change exceeds the threshold. -/
theorem C8_op_eval_semantics :
    (∀ (op : String) (thr : ℚ) (prev : Option ℚ),
      Risk.op_eval op none thr prev = false) ∧
    (∀ v thr : ℚ, Risk.op_eval "pct_change>" (some v) thr none = false) ∧
    (∀ v thr : ℚ, Risk.op_eval "pct_change>" (some v) thr (some 0) = false) ∧
    (∀ v p thr : ℚ, p ≠ 0 →
      (Risk.op_eval "pct_change>" (some v) thr (some p) = true
        ↔ |(v - p) / p| * 100 > thr)) := by
  refine ⟨fun op thr prev => rfl, fun v thr => by simp [Risk.op_eval],
    fun v thr => by simp [Risk.op_eval],
    fun v p thr hp => by simp [Risk.op_eval, hp]⟩

/-- C8 witness: the pct_change> characterization at prev 5, value 10,
threshold 50. -/
theorem C8_op_eval_semantics_witness :
    Risk.op_eval "pct_change>" (some 10) 50 (some 5) = true
      ↔ |((10 : ℚ) - 5) / 5| * 100 > 50 :=
  C8_op_eval_semantics.2.2.2 10 5 50 (by norm_num)

/-- C9 (counterexample): the claim quantifies over every multi-level
snapshot, but on the untagged encoding
{levels: {bids: [[100,1],[101,2]], asks: [[102,1],[103,5]]}} the code
misclassifies the untagged ask levels into the bid bucket, discards
them, synthesizes the ask side from the lowest bid, and emits the
crossed quote bid (101,2) / ask (100,1) — not the claimed best ask
(102,1). -/
theorem C9_untagged_snapshot_crossed_quote :
    HL.parse_l2_to_l1 7 untaggedBookMsg
      = .ok (some (7, "hyperliquid_perps", "btcusdt", 101, 2, 100, 1)) ∧
    ¬ (HL.parse_l2_to_l1 7 untaggedBookMsg
      = .ok (some (7, "hyperliquid_perps", "btcusdt", 101, 2, 102, 1))) :=
  ⟨rfl, by
    intro h
    rw [show HL.parse_l2_to_l1 7 untaggedBookMsg
        = .ok (some (7, "hyperliquid_perps", "btcusdt", 101, 2, 100, 1)) from rfl] at h
    norm_num at h⟩

/-- C9 (amended): for a side-tagged multi-level snapshot — the only
encoding in which the parser recognizes both sides — bid levels
[(100,1),(101,2)] and ask levels [(102,1),(103,5)] resolve to best bid
(101,2) and best ask (102,1) in every input order, and in general the
best bid taken by `parse_l2_to_l1` is a provided bid level of maximum
price and the best ask a provided ask level of minimum price, with no
pre-sortedness assumed; on untagged encodings the ask levels are lost
and the synthesized crossed quote of the C1 bug results instead. -/
theorem C9_best_bid_ask_selection :
    HL.parse_l2_to_l1 7 (bookMsg [bookLvl 100 1 "bid", bookLvl 101 2 "bid",
        bookLvl 102 1 "ask", bookLvl 103 5 "ask"])
      = .ok (some (7, "hyperliquid_perps", "btcusdt", 101, 2, 102, 1)) ∧
    HL.parse_l2_to_l1 7 (bookMsg [bookLvl 101 2 "bid", bookLvl 100 1 "bid",
        bookLvl 103 5 "ask", bookLvl 102 1 "ask"])
      = .ok (some (7, "hyperliquid_perps", "btcusdt", 101, 2, 102, 1)) ∧
    HL.parse_l2_to_l1 7 (bookMsg [bookLvl 103 5 "ask", bookLvl 101 2 "bid",
        bookLvl 102 1 "ask", bookLvl 100 1 "bid"])
      = .ok (some (7, "hyperliquid_perps", "btcusdt", 101, 2, 102, 1)) ∧
    HL.parse_l2_to_l1 7 (bookMsg [bookLvl 102 1 "ask", bookLvl 100 1 "bid",
        bookLvl 101 2 "bid", bookLvl 103 5 "ask"])
      = .ok (some (7, "hyperliquid_perps", "btcusdt", 101, 2, 102, 1)) ∧
    (∀ l : List HL.Lvl, l ≠ [] →
      ∃ b t, HL.sortDesc l = b :: t ∧ b ∈ l ∧ ∀ y ∈ l, y.1 ≤ b.1) ∧
    (∀ l : List HL.Lvl, l ≠ [] →
      ∃ b t, HL.sortAsc l = b :: t ∧ b ∈ l ∧ ∀ y ∈ l, b.1 ≤ y.1) :=
  ⟨rfl, rfl, rfl, rfl, HL.sortDesc_head_max, HL.sortAsc_head_min⟩

/-- C9 witness: the maximal-bid selection applied to the unsorted bid
levels [(100,1),(101,2)]. -/
theorem C9_best_bid_ask_selection_witness :
    ∃ b t, HL.sortDesc [((100 : ℚ), (1 : ℚ)), ((101 : ℚ), (2 : ℚ))] = b :: t ∧
      b ∈ [((100 : ℚ), (1 : ℚ)), ((101 : ℚ), (2 : ℚ))] ∧
      ∀ y ∈ [((100 : ℚ), (1 : ℚ)), ((101 : ℚ), (2 : ℚ))], y.1 ≤ b.1 :=
  C9_best_bid_ask_selection.2.2.2.2.1 _ (by simp)

/-- C10: when the INSERT of a fired RiskEvent fails, the exception
propagates before `mark_fired` runs: the evaluator returns with the
cooldown map (and whole state) unchanged, so the triple stays eligible;
when the INSERT succeeds the cooldown map is updated for that triple. -/
theorem C10_failed_insert_leaves_cooldown_unchanged
    (now minutes : ℚ) (venue symbol : String) (head : Risk.Sample)
    (prev : Option Risk.Sample) (r : Risk.Rule) (st : Risk.EvalSt)
    (hscope : Risk.match_scope r venue symbol = true)
    (hcool : Risk.cooloff_ok (Risk.lfLookup st.lastFired (r.id, venue, symbol))
      now minutes = true)
    (hop : Risk.op_eval r.op (head.getMetric r.metric) r.threshold
      (prev.bind fun p => p.getMetric r.metric) = true) :
    Risk.processRule false now minutes venue symbol head prev r st = (st, true) ∧
    (Risk.processRule true now minutes venue symbol head prev r st).1.lastFired
      = Risk.lfSet st.lastFired (r.id, venue, symbol) now := by
  constructor <;> simp [Risk.processRule, hscope, hcool, hop]

/-- C10 witness: a failing INSERT for a breached rule with an empty
cooldown map leaves the state unchanged; a succeeding one marks the
triple. -/
theorem C10_failed_insert_leaves_cooldown_unchanged_witness :
    Risk.processRule false 4 3 "binance_perps" "btcusdt"
      breachSample none wideSpreadRule freshSt = (freshSt, true) ∧
    (Risk.processRule true 4 3 "binance_perps" "btcusdt"
      breachSample none wideSpreadRule freshSt).1.lastFired
      = Risk.lfSet freshSt.lastFired ("wide_spread", "binance_perps", "btcusdt") 4 :=
  C10_failed_insert_leaves_cooldown_unchanged 4 3 "binance_perps" "btcusdt"
    breachSample none wideSpreadRule freshSt rfl rfl
    (by norm_num [Risk.op_eval, Risk.Sample.getMetric, wideSpreadRule,
      breachSample])

end PerpsOps
